import Mathlib

/-!
Verification of the transaction-integrity and lineage-resolution core of the
Traceability repository (src/web/traceability/models.py and views.py).

The Python code is shallowly embedded: JSON values become an inductive type
whose objects are association lists in insertion order (Python dicts preserve
insertion order); `json.dumps(..., separators=(',', ':'))` becomes `jsonDumps`;
`Transaction.verify_sign` becomes `verify_sign`, parameterised by the external
cryptographic primitives (SHA-256, RSA key import, PKCS#1 v1.5 verify) which
live in the PyCryptodome library, outside this repository; raising Python
exceptions becomes returning `Except.error`.
-/

/-- A JSON value as held in the `transaction_data` / `updated_quantity`
JSONFields.  Objects are association lists in insertion order; numbers are
modelled as integers (the claims under verification never depend on
floating-point behaviour). -/
inductive Json where
  | null : Json
  | bool (b : Bool) : Json
  | num (n : Int) : Json
  | str (s : String) : Json
  | arr (elems : List Json) : Json
  | obj (fields : List (String × Json)) : Json

/-- One lowercase hex digit, as produced by Python's `'\u%04x'` escapes. -/
def hexChar (n : Nat) : Char :=
  if n < 10 then Char.ofNat (48 + n) else Char.ofNat (87 + n)

/-- Four lowercase hex digits of a code unit. -/
def u4 (n : Nat) : String :=
  String.mk [hexChar (n / 4096 % 16), hexChar (n / 256 % 16), hexChar (n / 16 % 16), hexChar (n % 16)]

/-- Escaping of a single character exactly as CPython's
`json.encoder.py_encode_basestring_ascii` does with `ensure_ascii=True`:
quote and backslash get two-character escapes, the five classic control
characters get their short escapes, printable ASCII passes through, and
everything else becomes `\uXXXX` (with surrogate pairs above U+FFFF). -/
def escapeChar (c : Char) : String :=
  if c = '"' then "\\\""
  else if c = '\\' then "\\\\"
  else if c = '\x08' then "\\b"
  else if c = '\x0c' then "\\f"
  else if c = '\n' then "\\n"
  else if c = '\r' then "\\r"
  else if c = '\t' then "\\t"
  else if 32 ≤ c.toNat ∧ c.toNat ≤ 126 then String.singleton c
  else if c.toNat < 65536 then "\\u" ++ u4 c.toNat
  else
    let v := c.toNat - 65536
    "\\u" ++ u4 (55296 + v / 1024) ++ "\\u" ++ u4 (56320 + v % 1024)

/-- `json.dumps` of a Python `str`: a double-quoted, escaped string. -/
def dumpString (s : String) : String :=
  "\"" ++ String.join (s.data.map escapeChar) ++ "\""

mutual

/-- `json.dumps(v, separators=(',', ':'))`: compact serialization with no
incidental whitespace, object fields in list (= insertion) order. -/
def jsonDumps : Json → String
  | Json.null => "null"
  | Json.bool true => "true"
  | Json.bool false => "false"
  | Json.num n => toString n
  | Json.str s => dumpString s
  | Json.arr l => "[" ++ jsonDumpsArr l ++ "]"
  | Json.obj l => "\x7b" ++ jsonDumpsObj l ++ "\x7d"

/-- Comma-separated serialization of array elements. -/
def jsonDumpsArr : List Json → String
  | [] => ""
  | [j] => jsonDumps j
  | j :: j2 :: js => jsonDumps j ++ "," ++ jsonDumpsArr (j2 :: js)

/-- Comma-separated serialization of object fields, `"key":value` each. -/
def jsonDumpsObj : List (String × Json) → String
  | [] => ""
  | [(k, v)] => dumpString k ++ ":" ++ jsonDumps v
  | (k, v) :: p :: ps => dumpString k ++ ":" ++ jsonDumps v ++ "," ++ jsonDumpsObj (p :: ps)

end

/-- Code-point comparison of character lists: Python's `str` comparison is
lexicographic on Unicode code points. -/
def chLe : List Char → List Char → Bool
  | [], _ => true
  | _ :: _, [] => false
  | a :: as, b :: bs =>
    if a.toNat < b.toNat then true
    else if b.toNat < a.toNat then false
    else chLe as bs

/-- Python's `<=` on strings. -/
def strLe (a b : String) : Bool := chLe a.data b.data

/-- Comparison used by `sorted(self.transaction_data.items())`: Python sorts
the `(key, value)` tuples, which compares keys first; dict keys are unique, so
the key comparison alone decides the order. -/
def keyLe (a b : String × Json) : Bool := strLe a.1 b.1

/-- Stable insertion of a pair into a key-sorted list. -/
def insertPair (x : String × Json) : List (String × Json) → List (String × Json)
  | [] => [x]
  | y :: ys => if keyLe x y then x :: y :: ys else y :: insertPair x ys

/-- `sorted(d.items())`: a stable sort of the association list by key. -/
def sortPairs : List (String × Json) → List (String × Json)
  | [] => []
  | x :: xs => insertPair x (sortPairs xs)

/-- The fields of `Key` (models.py) that `verify_sign` reads: the key's hash
(its identifier) and its public-key text. -/
structure Key where
  hash : String
  public_key : String

/-- The fields of `Transaction` (models.py) that the claims under
verification read.  `transaction_data` and `updated_quantity` are JSONFields,
modelled as top-level association lists (Postgres json objects always have
string keys); the DateTime columns `server_timestamp` / `client_timestamp`
play no role in any claim and are omitted. -/
structure Transaction where
  hash : String
  type : Int
  mode : Int
  transmitter : Key
  receiver : Option Key
  raw_client_timestamp : String
  transaction_data : List (String × Json)
  sign : String
  updated_quantity : List (String × Json)

/-- Lines 57-62 of models.py: the `OrderedDict` built by `verify_sign`, in
exactly the order the code appends the pairs — type, mode, transmitter hash,
receiver hash only when a receiver is set (`if(self.receiver)`; a model
instance is always truthy), the raw client timestamp string, and the payload
with its top-level items sorted. -/
def canonicalPairs (tx : Transaction) : List (String × Json) :=
  [("type", Json.num tx.type), ("mode", Json.num tx.mode),
   ("transmitter", Json.str tx.transmitter.hash)]
  ++ (match tx.receiver with
      | some r => [("receiver", Json.str r.hash)]
      | none => [])
  ++ [("timestamp", Json.str tx.raw_client_timestamp),
      ("data", Json.obj (sortPairs tx.transaction_data))]

/-- Line 63 of models.py: `json.dumps(transaction, separators=(',',':'))`. -/
def serializeTransaction (tx : Transaction) : String :=
  jsonDumps (Json.obj (canonicalPairs tx))

/-- The value of a hex digit, upper or lower case. -/
def hexVal (c : Char) : Option Nat :=
  if 48 ≤ c.toNat ∧ c.toNat ≤ 57 then some (c.toNat - 48)
  else if 97 ≤ c.toNat ∧ c.toNat ≤ 102 then some (c.toNat - 87)
  else if 65 ≤ c.toNat ∧ c.toNat ≤ 70 then some (c.toNat - 55)
  else none

/-- Python's `bytes.fromhex`: pairs of hex digits, spaces allowed between
bytes; anything else — a non-hex character or a dangling digit — raises
`ValueError`, modelled as `none`. -/
def bytesFromHexList : List Char → Option (List Nat)
  | [] => some []
  | ' ' :: rest => bytesFromHexList rest
  | c1 :: c2 :: rest =>
    match hexVal c1, hexVal c2, bytesFromHexList rest with
    | some h, some l, some bs => some ((16 * h + l) :: bs)
    | _, _, _ => none
  | [_] => none

/-- `bytes.fromhex` on a string. -/
def bytesFromHex (s : String) : Option (List Nat) := bytesFromHexList s.data

/-- The Python exceptions the embedded code can raise. `keyError` is a dict
lookup miss (the spec's PayloadShapeError); `valueError` covers
`bytes.fromhex` on malformed hex and `RSA.importKey` on unparsable key
material; `typeError` is indexing a non-pair payload element. -/
inductive Err where
  | keyError : Err
  | valueError : Err
  | typeError : Err
deriving DecidableEq

/-- The cryptographic primitives `verify_sign` calls, all implemented by the
PyCryptodome library outside this repository: `sha256Hex` is
`SHA256.new(...).hexdigest()` on the UTF-8 of a string, `importKey` is
`RSA.importKey` (`none` models the ValueError raised on unparsable key
material), and `verify` is `PKCS1_v1_5.new(key).verify(digest, sigBytes)`,
which returns a Bool and does not raise. -/
structure CryptoOps where
  sha256Hex : String → String
  importKey : String → Option String
  verify : String → String → List Nat → Bool

/-- Lines 56-71 of models.py, `Transaction.verify_sign`: re-serialize the
transaction canonically, hash it, compare with the stored hash (returning
False on mismatch before any cryptography), then import the transmitter's
key and check the PKCS#1 v1.5 signature over the computed digest, decoding
the stored signature from hex.  `Except.error` models an uncaught Python
exception. -/
def verify_sign (ops : CryptoOps) (tx : Transaction) : Except Err Bool :=
  let calculated_hash := ops.sha256Hex (serializeTransaction tx)
  if tx.hash ≠ calculated_hash then Except.ok false
  else
    match ops.importKey tx.transmitter.public_key with
    | none => Except.error Err.valueError
    | some keyobject =>
      match bytesFromHex tx.sign with
      | none => Except.error Err.valueError
      | some sigBytes => Except.ok (ops.verify keyobject calculated_hash sigBytes)

/-- A row of `TransactionInput` (models.py lines 74-81): the link-table
triple (owning transaction, input transaction, product code). -/
structure TInput where
  t_hash : String
  input : String
  product : String

/-- One of the per-product dicts built by `TransactionDetail` (views.py).
The Python dict starts with only `product` plus one of `newid` / `id` /
`quantity`; an absent key is `none` for the option fields and `[]` for the
`pre` / `post` lists that `set_pre_transactions` / `set_post_transactions`
later fill in. -/
structure Entry where
  product : String
  newid : Option Json
  id : Option String
  quantity : Option Json
  pre : List String
  post : List String

/-- Python truthiness of a JSON value (`if newid:`): `None`, `False`, `0`,
`""`, `[]` and the empty object are falsy, everything else is truthy. -/
def truthy : Json → Bool
  | Json.null => false
  | Json.bool b => b
  | Json.num n => decide (n ≠ 0)
  | Json.str s => decide (s ≠ "")
  | Json.arr [] => false
  | Json.arr (_ :: _) => true
  | Json.obj [] => false
  | Json.obj (_ :: _) => true

/-- Truthiness of the `newid` argument, whose Python value is either `None`
(the default / the missing-key case) or a JSON value. -/
def truthyOpt : Option Json → Bool
  | none => false
  | some j => truthy j

/-- Python dict lookup `d[k]` on a JSON object, as an option. -/
def lookupJ (k : String) : List (String × Json) → Option Json
  | [] => none
  | (k2, v) :: rest => if k2 = k then some v else lookupJ k rest

/-- views.py lines 168-179, `make_product_list`: one dict per payload pair,
holding the product code and — in this priority order — the truthy `new_id`,
else the pair's string value as an existing identifier, else the pair's
value as a quantity (numeric or null). -/
def make_product_list (p_list : List (String × Json)) (newid : Option Json) : List Entry :=
  p_list.map fun p =>
    if truthyOpt newid then
      { product := p.1, newid := newid, id := none, quantity := none, pre := [], post := [] }
    else
      match p.2 with
      | Json.str s =>
        { product := p.1, newid := none, id := some s, quantity := none, pre := [], post := [] }
      | v =>
        { product := p.1, newid := none, id := none, quantity := some v, pre := [], post := [] }

/-- The test `'quantity' in p and p['quantity'] == None` of views.py line
183: the entry has a quantity key and its value is null. -/
def isNullQuantity : Option Json → Bool
  | some Json.null => true
  | _ => false

/-- views.py lines 181-184, `set_quantity`: replace each entry's `None`
quantity by `updated_quantity[product]`; the unguarded dict lookup raises
`KeyError` when the product code is not in the map. -/
def set_quantity (p_list : List Entry) (updated_quantity : List (String × Json)) :
    Except Err (List Entry) :=
  match p_list with
  | [] => Except.ok []
  | p :: rest =>
    if isNullQuantity p.quantity then
      match lookupJ p.product updated_quantity with
      | some v =>
        (set_quantity rest updated_quantity).map
          (fun r => { p with quantity := some v } :: r)
      | none => Except.error Err.keyError
    else (set_quantity rest updated_quantity).map (fun r => p :: r)

/-- views.py lines 186-189, `set_pre_transactions`: each entry's `pre` list
is the `input` column of the link rows owned by this transaction for the
entry's product. -/
def set_pre_transactions (p_list : List Entry) (hash : String) (links : List TInput) :
    List Entry :=
  p_list.map fun p =>
    { p with
      pre := (links.filter fun l => l.t_hash == hash && l.product == p.product).map TInput.input }

/-- views.py lines 191-194, `set_post_transactions`: each entry's `post`
list is the `t_hash` column of the link rows that consume this transaction
for the entry's product. -/
def set_post_transactions (p_list : List Entry) (hash : String) (links : List TInput) :
    List Entry :=
  p_list.map fun p =>
    { p with
      post := (links.filter fun l => l.input == hash && l.product == p.product).map TInput.t_hash }

/-- A payload pair `p`, read through `p[0]` / `p[1]`.  The data model keeps
product codes as strings (they key `updated_quantity` and the link table's
`product` CharField); an element that is not a list of at least two items
raises (`TypeError`/`IndexError`). -/
def asPair : Json → Option (String × Json)
  | Json.arr (Json.str c :: v :: _) => some (c, v)
  | _ => none

/-- A payload product list, element-wise through `asPair`. -/
def asPairList : Json → Option (List (String × Json))
  | Json.arr l => l.mapM asPair
  | _ => none

/-- The lineage-relevant part of the template context that
`TransactionDetail.get_context_data` builds: the signature-verification
result and the per-product entry lists for the single-product (`product`)
and dual-flow (`product_in` / `product_out`) payload shapes. -/
structure Context where
  sign : Bool
  product : Option (List Entry)
  product_in : Option (List Entry)
  product_out : Option (List Entry)

/-- views.py lines 147-166, `TransactionDetail.get_context_data` (the part
after the object is fetched): verify the signature, read the optional
`new_id`, then either build the single `product` list (quantity resolution,
then predecessor and successor links) or the `product_in` / `product_out`
pair (quantities and predecessors on the in-list, `new_id` and successors
on the out-list).  Accessing a missing `product_in` / `product_out` key is
a `KeyError`. -/
def get_context_data (ops : CryptoOps) (tx : Transaction) (links : List TInput) :
    Except Err Context :=
  match verify_sign ops tx with
  | Except.error e => Except.error e
  | Except.ok sign =>
    let newid := lookupJ "new_id" tx.transaction_data
    match lookupJ "product" tx.transaction_data with
    | some pj =>
      match asPairList pj with
      | none => Except.error Err.typeError
      | some pl =>
        match set_quantity (make_product_list pl newid) tx.updated_quantity with
        | Except.error e => Except.error e
        | Except.ok l1 =>
          let l2 := set_pre_transactions l1 tx.hash links
          let l3 := set_post_transactions l2 tx.hash links
          Except.ok { sign := sign, product := some l3, product_in := none, product_out := none }
    | none =>
      match lookupJ "product_in" tx.transaction_data with
      | none => Except.error Err.keyError
      | some pij =>
        match asPairList pij with
        | none => Except.error Err.typeError
        | some pil =>
          match lookupJ "product_out" tx.transaction_data with
          | none => Except.error Err.keyError
          | some poj =>
            match asPairList poj with
            | none => Except.error Err.typeError
            | some pol =>
              let lout := make_product_list pol newid
              match set_quantity (make_product_list pil none) tx.updated_quantity with
              | Except.error e => Except.error e
              | Except.ok lin1 =>
                let lin2 := set_pre_transactions lin1 tx.hash links
                let lout2 := set_post_transactions lout tx.hash links
                Except.ok { sign := sign, product := none,
                            product_in := some lin2, product_out := some lout2 }

/-- A registered key used by the concrete checks. -/
def keyA : Key := { hash := "kh", public_key := "kpub" }

/-- A base transaction for the concrete checks; each check updates the
fields it cares about. -/
def txBase : Transaction :=
  { hash := "deadbeef", type := 1, mode := 2, transmitter := keyA, receiver := none,
    raw_client_timestamp := "2020-01-01T00:00:00Z",
    transaction_data := [], sign := "00", updated_quantity := [] }

/-- Crypto primitives for the concrete checks: the hash engine returns the
constant `h`, key import succeeds, and the signature verifier accepts
everything (the properties checked on concrete data either quantify over
the primitives or do not depend on them). -/
def constOps (h : String) : CryptoOps :=
  { sha256Hex := fun _ => h, importKey := fun k => some k, verify := fun _ _ _ => true }

/-- Transaction whose payload object nests an object with keys inserted in
the order x, y. -/
def tx3a : Transaction :=
  { txBase with transaction_data := [("a", Json.obj [("x", Json.num 1), ("y", Json.num 2)])] }

/-- The same logical payload as `tx3a`, the nested keys inserted y first. -/
def tx3b : Transaction :=
  { txBase with transaction_data := [("a", Json.obj [("y", Json.num 2), ("x", Json.num 1)])] }

/-- Transaction with a two-key top-level payload. -/
def tx3w : Transaction :=
  { txBase with transaction_data := [("a", Json.num 1), ("b", Json.num 2)] }

/-- Transaction whose stored hash matches the (constant) recomputed digest
but whose stored signature is not a hex string. -/
def c4tx : Transaction := { txBase with hash := "d", sign := "zz" }

/-- Transaction whose payload has none of the product keys. -/
def tx6 : Transaction := { txBase with transaction_data := [("foo", Json.num 1)] }

/-- Transaction whose payload carries a falsy `new_id` (the empty string)
and a single-product list. -/
def tx8 : Transaction :=
  { txBase with
    hash := "h",
    transaction_data := [("new_id", Json.str ""),
                         ("product", Json.arr [Json.arr [Json.str "P1", Json.num 5]])] }

/-- A product entry for product P. -/
def entryP : Entry :=
  { product := "P", newid := none, id := none, quantity := some (Json.num 1), pre := [], post := [] }

/-- The two link rows of the spec's lineage example: B consumed P from A,
and C consumed P from B. -/
def exLinks : List TInput :=
  [{ t_hash := "B", input := "A", product := "P" },
   { t_hash := "C", input := "B", product := "P" }]

/-- Entry for P1 with a null payload quantity. -/
def e71 : Entry :=
  { product := "P1", newid := none, id := none, quantity := some Json.null, pre := [], post := [] }

/-- Entry for P1 with the explicit payload quantity 7. -/
def e72 : Entry :=
  { product := "P1", newid := none, id := none, quantity := some (Json.num 7), pre := [], post := [] }

/-- Entry for P1 with the explicit payload quantity 5. -/
def e10 : Entry :=
  { product := "P1", newid := none, id := none, quantity := some (Json.num 5), pre := [], post := [] }

lemma chLe_total (a b : List Char) : chLe a b = true ∨ chLe b a = true := by
  induction a generalizing b with
  | nil => left; rfl
  | cons x xs ih =>
    cases b with
    | nil => right; rfl
    | cons y ys =>
      by_cases h1 : x.toNat < y.toNat
      · left; simp [chLe, h1]
      · by_cases h2 : y.toNat < x.toNat
        · right; simp [chLe, h2]
        · rcases ih ys with h | h
          · left; simp [chLe, h1, h2, h]
          · right; simp [chLe, h1, h2, h]

lemma chLe_antisymm (a b : List Char) (h1 : chLe a b = true) (h2 : chLe b a = true) :
    a = b := by
  induction a generalizing b with
  | nil =>
    cases b with
    | nil => rfl
    | cons y ys => simp [chLe] at h2
  | cons x xs ih =>
    cases b with
    | nil => simp [chLe] at h1
    | cons y ys =>
      by_cases hxy : x.toNat < y.toNat
      · simp [chLe, hxy, Nat.lt_asymm hxy] at h2
      · by_cases hyx : y.toNat < x.toNat
        · simp [chLe, hxy, hyx] at h1
        · have hx : x = y :=
            Char.ext (UInt32.ext (Nat.le_antisymm (Nat.not_lt.mp hyx) (Nat.not_lt.mp hxy)))
          subst hx
          simp [chLe, Nat.lt_irrefl] at h1 h2
          rw [ih ys h1 h2]

lemma chLe_trans (a b c : List Char) (h1 : chLe a b = true) (h2 : chLe b c = true) :
    chLe a c = true := by
  induction a generalizing b c with
  | nil => rfl
  | cons x xs ih =>
    cases b with
    | nil => simp [chLe] at h1
    | cons y ys =>
      cases c with
      | nil => simp [chLe] at h2
      | cons z zs =>
        by_cases hxy : x.toNat < y.toNat
        · by_cases hyz : y.toNat < z.toNat
          · simp [chLe, Nat.lt_trans hxy hyz]
          · by_cases hzy : z.toNat < y.toNat
            · simp [chLe, hyz, hzy] at h2
            · have : y.toNat = z.toNat := Nat.le_antisymm (Nat.not_lt.mp hzy) (Nat.not_lt.mp hyz)
              simp [chLe, this ▸ hxy]
        · by_cases hyx : y.toNat < x.toNat
          · simp [chLe, hxy, hyx] at h1
          · have hxyeq : x.toNat = y.toNat := Nat.le_antisymm (Nat.not_lt.mp hyx) (Nat.not_lt.mp hxy)
            simp [chLe, hxy, hyx] at h1
            by_cases hyz : y.toNat < z.toNat
            · simp [chLe, hxyeq ▸ hyz]
            · by_cases hzy : z.toNat < y.toNat
              · simp [chLe, hyz, hzy] at h2
              · simp [chLe, hyz, hzy] at h2
                have hxz : ¬ x.toNat < z.toNat := hxyeq ▸ hyz
                have hzx : ¬ z.toNat < x.toNat := hxyeq ▸ hzy
                simp [chLe, hxz, hzx, ih ys zs h1 h2]

lemma strLe_total (a b : String) : strLe a b = true ∨ strLe b a = true :=
  chLe_total a.data b.data

lemma strLe_antisymm (a b : String) (h1 : strLe a b = true) (h2 : strLe b a = true) :
    a = b :=
  String.ext (chLe_antisymm a.data b.data h1 h2)

lemma keyLe_trans {a b c : String × Json} (h1 : keyLe a b = true) (h2 : keyLe b c = true) :
    keyLe a c = true :=
  chLe_trans _ _ _ h1 h2

lemma keyLe_total (a b : String × Json) : keyLe a b = true ∨ keyLe b a = true :=
  strLe_total a.1 b.1

lemma insertPair_perm (x : String × Json) (l : List (String × Json)) :
    (insertPair x l).Perm (x :: l) := by
  induction l with
  | nil => exact List.Perm.refl _
  | cons y ys ih =>
    by_cases h : keyLe x y = true
    · simp [insertPair, h]
    · simp only [insertPair, h, if_false]
      exact (ih.cons y).trans (List.Perm.swap x y ys)

lemma sortPairs_perm (l : List (String × Json)) : (sortPairs l).Perm l := by
  induction l with
  | nil => exact List.Perm.refl _
  | cons x xs ih => exact (insertPair_perm x (sortPairs xs)).trans (ih.cons x)

lemma insertPair_sorted (x : String × Json) (l : List (String × Json))
    (h : l.Pairwise (fun a b => keyLe a b = true)) :
    (insertPair x l).Pairwise (fun a b => keyLe a b = true) := by
  induction l with
  | nil => simp [insertPair]
  | cons y ys ih =>
    rcases List.pairwise_cons.mp h with ⟨hy, hys⟩
    by_cases hxy : keyLe x y = true
    · simp only [insertPair, hxy, if_true]
      refine List.pairwise_cons.mpr ⟨?_, h⟩
      intro z hz
      rcases List.mem_cons.mp hz with rfl | hz'
      · exact hxy
      · exact keyLe_trans hxy (hy z hz')
    · simp only [insertPair, hxy, if_false]
      refine List.pairwise_cons.mpr ⟨?_, ih hys⟩
      intro z hz
      have hz2 : z ∈ x :: ys := (insertPair_perm x ys).mem_iff.mp hz
      rcases List.mem_cons.mp hz2 with rfl | hz'
      · rcases keyLe_total z y with h' | h'
        · exact absurd h' hxy
        · exact h'
      · exact hy z hz'

lemma sortPairs_sorted (l : List (String × Json)) :
    (sortPairs l).Pairwise (fun a b => keyLe a b = true) := by
  induction l with
  | nil => exact List.Pairwise.nil
  | cons x xs ih => exact insertPair_sorted x (sortPairs xs) ih

lemma sorted_perm_eq : ∀ l1 l2 : List (String × Json),
    l1.Perm l2 →
    l1.Pairwise (fun a b => keyLe a b = true) →
    l2.Pairwise (fun a b => keyLe a b = true) →
    (l1.map Prod.fst).Nodup → l1 = l2 := by
  intro l1
  induction l1 with
  | nil =>
    intro l2 hp _ _ _
    exact (hp.symm.eq_nil).symm ▸ rfl
  | cons a l1 ih =>
    intro l2 hp hs1 hs2 hnd
    cases l2 with
    | nil => exact absurd hp.eq_nil (by simp)
    | cons b l2 =>
      have hab : a = b := by
        by_contra hne
        have hbmem : b ∈ a :: l1 := hp.mem_iff.mpr (List.mem_cons_self b l2)
        have hamem : a ∈ b :: l2 := hp.mem_iff.mp (List.mem_cons_self a l1)
        have hbl1 : b ∈ l1 := by
          rcases List.mem_cons.mp hbmem with h | h
          · exact absurd h.symm hne
          · exact h
        have hal2 : a ∈ l2 := by
          rcases List.mem_cons.mp hamem with h | h
          · exact absurd h hne
          · exact h
        have h1 : keyLe a b = true := List.rel_of_pairwise_cons hs1 hbl1
        have h2 : keyLe b a = true := List.rel_of_pairwise_cons hs2 hal2
        have hfst : a.1 = b.1 := strLe_antisymm _ _ h1 h2
        have hninl : a.1 ∉ l1.map Prod.fst := (List.nodup_cons.mp hnd).1
        exact hninl (hfst ▸ List.mem_map_of_mem Prod.fst hbl1)
      subst hab
      have := ih l2 hp.cons_inv (List.pairwise_cons.mp hs1).2
        (List.pairwise_cons.mp hs2).2 (List.nodup_cons.mp hnd).2
      rw [this]

lemma sortPairs_eq_of_perm (l1 l2 : List (String × Json)) (hp : l1.Perm l2)
    (hnd : (l1.map Prod.fst).Nodup) : sortPairs l1 = sortPairs l2 :=
  sorted_perm_eq _ _ ((sortPairs_perm l1).trans (hp.trans (sortPairs_perm l2).symm))
    (sortPairs_sorted l1) (sortPairs_sorted l2)
    (((sortPairs_perm l1).map Prod.fst).nodup_iff.mpr hnd)

lemma dumpString_key_type : dumpString "type" = "\"type\"" := rfl

lemma dumpString_key_mode : dumpString "mode" = "\"mode\"" := rfl

lemma dumpString_key_transmitter : dumpString "transmitter" = "\"transmitter\"" := rfl

lemma dumpString_key_receiver : dumpString "receiver" = "\"receiver\"" := rfl

lemma dumpString_key_timestamp : dumpString "timestamp" = "\"timestamp\"" := rfl

lemma dumpString_key_data : dumpString "data" = "\"data\"" := rfl

lemma set_quantity_total_eq (p_list : List Entry) (uq : List (String × Json))
    (htotal : ∀ p ∈ p_list, isNullQuantity p.quantity = true → (lookupJ p.product uq).isSome) :
    set_quantity p_list uq =
      Except.ok (p_list.map fun p =>
        if isNullQuantity p.quantity then { p with quantity := lookupJ p.product uq } else p) := by
  induction p_list with
  | nil => rfl
  | cons p rest ih =>
    have hrest := fun q hq => htotal q (List.mem_cons_of_mem p hq)
    by_cases hq : isNullQuantity p.quantity = true
    · rcases Option.isSome_iff_exists.mp (htotal p (List.mem_cons_self p rest) hq) with ⟨v, hv⟩
      simp [set_quantity, hq, hv, ih hrest, Except.map]
    · simp [set_quantity, hq, ih hrest, Except.map]

/-- Claim C2: the canonical byte encoding of a transaction is the compact
serialization (separators `,` and `:`, no incidental whitespace) of exactly
these fields in this order: type, mode, transmitter key hash, then the
receiver key hash only when a receiver is present, then the raw client
timestamp string verbatim, then the payload with its top-level mapping keys
sorted. -/
theorem canonical_encoding_layout (tx : Transaction) :
    serializeTransaction tx =
      "\x7b" ++ ("\"type\":" ++ (toString tx.type
      ++ ("," ++ ("\"mode\":" ++ (toString tx.mode
      ++ ("," ++ ("\"transmitter\":" ++ (dumpString tx.transmitter.hash
      ++ ((match tx.receiver with
          | some r => "," ++ ("\"receiver\":" ++ dumpString r.hash)
          | none => "")
      ++ ("," ++ ("\"timestamp\":" ++ (dumpString tx.raw_client_timestamp
      ++ ("," ++ ("\"data\":" ++ (jsonDumps (Json.obj (sortPairs tx.transaction_data))
      ++ "\x7d"))))))))))))))) := by
  cases hr : tx.receiver with
  | none =>
    simp [serializeTransaction, canonicalPairs, hr, jsonDumps, jsonDumpsObj,
      dumpString_key_type, dumpString_key_mode, dumpString_key_transmitter,
      dumpString_key_timestamp, dumpString_key_data,
      String.append_assoc, String.append_empty, String.empty_append]
  | some r =>
    simp [serializeTransaction, canonicalPairs, hr, jsonDumps, jsonDumpsObj,
      dumpString_key_type, dumpString_key_mode, dumpString_key_transmitter,
      dumpString_key_receiver, dumpString_key_timestamp, dumpString_key_data,
      String.append_assoc, String.append_empty, String.empty_append]

/-- Claim C1: when the stored identifier differs from the hex digest of the
recomputed canonical encoding, `verify_sign` returns False — the spec's
hashMatches=false, signatureValid=false outcome — without invoking the
signature verifier: the result is `Except.ok false` for every key importer
and every verifier, in particular for a verifier that accepts every
signature. -/
theorem hash_mismatch_short_circuits (sha : String → String) (imp : String → Option String)
    (ver : String → String → List Nat → Bool) (tx : Transaction)
    (h : tx.hash ≠ sha (serializeTransaction tx)) :
    verify_sign { sha256Hex := sha, importKey := imp, verify := ver } tx = Except.ok false := by
  simp [verify_sign, h]

/-- Witness for C1: a concrete transaction whose stored hash differs from
the recomputed digest is rejected even though the supplied verifier accepts
everything. -/
theorem hash_mismatch_short_circuits_witness :
    txBase.hash ≠ (fun _ => "") (serializeTransaction txBase) ∧
    verify_sign { sha256Hex := fun _ => "", importKey := fun k => some k,
                  verify := fun _ _ _ => true } txBase = Except.ok false :=
  ⟨by decide, hash_mismatch_short_circuits _ _ _ txBase (by decide)⟩

/-- Counterexample to claim C3 as stated: two transactions whose payloads
hold the same key-value pairs with keys inserted in different orders at
nesting depth one (the nested pair lists are permutations of each other,
and the transactions agree on every other field) serialize to different
byte strings — `verify_sign` sorts only the top-level payload keys, and
`json.dumps` keeps nested dicts in insertion order. -/
theorem nested_key_order_changes_encoding :
    tx3b = { tx3a with
             transaction_data := [("a", Json.obj [("y", Json.num 2), ("x", Json.num 1)])] } ∧
    List.Perm [("x", Json.num 1), ("y", Json.num 2)] [("y", Json.num 2), ("x", Json.num 1)] ∧
    serializeTransaction tx3a ≠ serializeTransaction tx3b :=
  ⟨rfl, List.Perm.swap _ _ _, by decide⟩

/-- Claim C3 as amended: reordering the keys of the top-level payload
mapping (a permutation of the association list, with the payload's distinct
keys and the nested values left untouched) does not change the canonical
encoding. -/
theorem toplevel_key_order_irrelevant (tx : Transaction) (d : List (String × Json))
    (hperm : d.Perm tx.transaction_data)
    (hnd : (tx.transaction_data.map Prod.fst).Nodup) :
    serializeTransaction { tx with transaction_data := d } = serializeTransaction tx := by
  have hd : (d.map Prod.fst).Nodup := ((hperm.map Prod.fst).nodup_iff).mpr hnd
  simp only [serializeTransaction, canonicalPairs]
  rw [sortPairs_eq_of_perm d tx.transaction_data hperm hd]

/-- Witness for the amended C3: swapping the two top-level payload keys of
a concrete transaction leaves the canonical encoding unchanged. -/
theorem toplevel_key_order_irrelevant_witness :
    serializeTransaction { tx3w with
      transaction_data := [("b", Json.num 2), ("a", Json.num 1)] }
      = serializeTransaction tx3w :=
  toplevel_key_order_irrelevant tx3w _ (List.Perm.swap _ _ _) (by decide)

/-- Claim C4 (evaluation at the failing input): a transaction whose stored
hash matches the recomputed digest but whose stored signature is not valid
hex makes `verify_sign` raise ValueError (from `bytes.fromhex`) instead of
returning the False the spec requires — the code propagates a parse error
where the claim says verification returns a negative outcome without
raising. -/
theorem malformed_hex_signature_raises :
    verify_sign (constOps "d") c4tx = Except.error Err.valueError ∧
    verify_sign (constOps "d") c4tx ≠ Except.ok false :=
  ⟨rfl, fun h => Except.noConfusion h⟩

/-- Claim C5: after `set_pre_transactions` and `set_post_transactions`,
every entry's predecessor list is exactly the input-transaction hashes of
the link rows whose owner is this transaction and whose product is the
entry's product, and its successor list is exactly the owner hashes of the
link rows whose input is this transaction for that product; in particular,
with rows (owner B, input A, product P) and (owner C, input B, product P),
resolving B for P gives predecessors A and successors C. -/
theorem lineage_pre_post_exact :
    (∀ (p_list : List Entry) (hash : String) (links : List TInput),
      set_post_transactions (set_pre_transactions p_list hash links) hash links
        = p_list.map fun p =>
            { p with
              pre := (links.filter fun l => l.t_hash == hash && l.product == p.product).map
                TInput.input,
              post := (links.filter fun l => l.input == hash && l.product == p.product).map
                TInput.t_hash })
    ∧ set_post_transactions (set_pre_transactions [entryP] "B" exLinks) "B" exLinks
        = [{ entryP with pre := ["A"], post := ["C"] }] := by
  constructor
  · intro p_list hash links
    simp only [set_pre_transactions, set_post_transactions, List.map_map]
    rfl
  · rfl

/-- Claim C6: a payload with neither a `product` key nor `product_in` /
`product_out` keys makes `get_context_data` fail with the KeyError raised
on `transaction_data['product_in']` — the spec's PayloadShapeError — so no
lineage entries are produced (the error result carries no context). -/
theorem missing_product_keys_payload_error (ops : CryptoOps) (tx : Transaction)
    (links : List TInput) (b : Bool)
    (hsign : verify_sign ops tx = Except.ok b)
    (h1 : lookupJ "product" tx.transaction_data = none)
    (h2 : lookupJ "product_in" tx.transaction_data = none)
    (h3 : lookupJ "product_out" tx.transaction_data = none) :
    get_context_data ops tx links = Except.error Err.keyError := by
  simp [get_context_data, hsign, h1, h2]

/-- Witness for C6: a concrete transaction whose payload has only a `foo`
key fails lineage resolution with the KeyError. -/
theorem missing_product_keys_payload_error_witness :
    verify_sign (constOps "") tx6 = Except.ok false ∧
    lookupJ "product" tx6.transaction_data = none ∧
    lookupJ "product_in" tx6.transaction_data = none ∧
    lookupJ "product_out" tx6.transaction_data = none ∧
    get_context_data (constOps "") tx6 [] = Except.error Err.keyError :=
  ⟨rfl, rfl, rfl, rfl,
    missing_product_keys_payload_error (constOps "") tx6 [] false rfl rfl rfl rfl⟩

/-- Claim C7: when every null-quantity product code is in the resolution
map, `set_quantity` succeeds and resolves each entry — an entry whose
quantity is null receives the map's value for its product code, and an
entry with an explicit (non-null) quantity is returned unchanged, whatever
the map contains. -/
theorem quantity_resolution_spec (p_list : List Entry) (uq : List (String × Json))
    (htotal : ∀ p ∈ p_list, isNullQuantity p.quantity = true → (lookupJ p.product uq).isSome) :
    set_quantity p_list uq =
      Except.ok (p_list.map fun p =>
        if isNullQuantity p.quantity then { p with quantity := lookupJ p.product uq } else p) :=
  set_quantity_total_eq p_list uq htotal

/-- Witness for C7, the spec's own example: payload quantity null for P1
with map P1 to 42 resolves to 42, and explicit payload quantity 7 stays 7
under a map sending P1 to 99. -/
theorem quantity_resolution_spec_witness :
    set_quantity [e71] [("P1", Json.num 42)]
      = Except.ok [{ e71 with quantity := some (Json.num 42) }] ∧
    set_quantity [e72] [("P1", Json.num 99)] = Except.ok [e72] :=
  ⟨quantity_resolution_spec [e71] [("P1", Json.num 42)] (by decide),
   quantity_resolution_spec [e72] [("P1", Json.num 99)] (by decide)⟩

/-- Counterexample to claim C8 as stated: a transaction whose payload does
have a top-level `new_id` — the falsy value given by the empty string —
builds its product entry without any minted identifier (the entry keeps the
pair's quantity 5 and its newid field is absent), because the code tests
`if newid:` by Python truthiness rather than by key presence. -/
theorem falsy_new_id_is_dropped :
    lookupJ "new_id" tx8.transaction_data = some (Json.str "") ∧
    get_context_data (constOps "h") tx8 []
      = Except.ok { sign := true, product := some [e10],
                    product_in := none, product_out := none } ∧
    e10.newid ≠ some (Json.str "") :=
  ⟨rfl, rfl, fun h => Option.noConfusion h⟩

/-- Claim C8 as amended: when the payload's top-level new_id is truthy,
every entry built from the list it applies to carries it as the minted
identifier, and neither an existing-identifier nor a quantity field is set
(new_id takes precedence over the pair's own value); a list built without
new_id — as `product_in` always is (views.py line 160 passes no second
argument) — never carries a minted identifier. -/
theorem truthy_new_id_minted (p_list : List (String × Json)) (nid : Json)
    (ht : truthy nid = true) :
    (make_product_list p_list (some nid)).map Entry.newid = p_list.map (fun _ => some nid)
    ∧ (make_product_list p_list (some nid)).map Entry.id = p_list.map (fun _ => none)
    ∧ (make_product_list p_list (some nid)).map Entry.quantity = p_list.map (fun _ => none)
    ∧ (make_product_list p_list none).map Entry.newid = p_list.map (fun _ => none) := by
  refine ⟨?_, ?_, ?_, ?_⟩
  · simp [make_product_list, List.map_map, truthyOpt, ht, Function.comp_def]
  · simp [make_product_list, List.map_map, truthyOpt, ht, Function.comp_def]
  · simp [make_product_list, List.map_map, truthyOpt, ht, Function.comp_def]
  · induction p_list with
    | nil => rfl
    | cons p rest ih =>
      cases hp2 : p.2 <;> simp [make_product_list, truthyOpt, hp2, ih] <;>
        simpa [make_product_list, truthyOpt] using ih

/-- Witness for the amended C8: a truthy new_id "N" is attached as the
minted identifier of every entry of a concrete two-product list. -/
theorem truthy_new_id_minted_witness :
    truthy (Json.str "N") = true ∧
    (make_product_list [("P1", Json.num 5), ("P2", Json.str "old")]
        (some (Json.str "N"))).map Entry.newid
      = [some (Json.str "N"), some (Json.str "N")] :=
  ⟨by decide,
   (truthy_new_id_minted [("P1", Json.num 5), ("P2", Json.str "old")]
      (Json.str "N") (by decide)).1⟩

/-- Claim C9: the quantity-resolution lookup is unguarded — if some entry
has a null quantity whose product code is missing from the map, the whole
`set_quantity` pass raises KeyError; it succeeds exactly under the
precondition that every null-quantity product code is present. -/
theorem unguarded_quantity_lookup (p_list : List Entry) (uq : List (String × Json)) :
    ((∃ p ∈ p_list, isNullQuantity p.quantity = true ∧ lookupJ p.product uq = none) →
      set_quantity p_list uq = Except.error Err.keyError)
    ∧ ((∀ p ∈ p_list, isNullQuantity p.quantity = true → (lookupJ p.product uq).isSome) →
      (set_quantity p_list uq).isOk = true) := by
  constructor
  · induction p_list with
    | nil =>
      intro hex
      rcases hex with ⟨p, hp, _⟩
      simp at hp
    | cons p rest ih =>
      intro hex
      rcases hex with ⟨q, hq, hnull, hmiss⟩
      rcases List.mem_cons.mp hq with rfl | hq'
      · simp [set_quantity, hnull, hmiss]
      · by_cases hp : isNullQuantity p.quantity = true
        · rcases hlv : lookupJ p.product uq with _ | v
          · simp [set_quantity, hp, hlv]
          · simp [set_quantity, hp, hlv, Except.map, ih ⟨q, hq', hnull, hmiss⟩]
        · simp [set_quantity, hp, Except.map, ih ⟨q, hq', hnull, hmiss⟩]
  · intro htot
    rw [set_quantity_total_eq p_list uq htot]
    rfl

/-- Witness for C9: a single null-quantity entry for P1 against an empty
resolution map raises the KeyError. -/
theorem unguarded_quantity_lookup_witness :
    set_quantity [e71] [] = Except.error Err.keyError :=
  (unguarded_quantity_lookup [e71] []).1 ⟨e71, List.mem_cons_self e71 [], rfl, rfl⟩

/-- Claim C10: every entry built from a payload pair carries the product
code together with exactly one of a minted identifier, an existing
identifier, or a quantity — the other two fields are absent, whatever the
payload list and the applicable new_id. -/
theorem entry_field_exclusivity (p_list : List (String × Json)) (newid : Option Json)
    (e : Entry) (he : e ∈ make_product_list p_list newid) :
    (e.newid.isSome = true ∧ e.id = none ∧ e.quantity = none)
    ∨ (e.newid = none ∧ e.id.isSome = true ∧ e.quantity = none)
    ∨ (e.newid = none ∧ e.id = none ∧ e.quantity.isSome = true) := by
  rcases List.mem_map.mp he with ⟨p, hp, rfl⟩
  by_cases ht : truthyOpt newid = true
  · cases newid with
    | none => simp [truthyOpt] at ht
    | some j =>
      left
      simp [ht]
  · simp only [Bool.not_eq_true] at ht
    cases hp2 : p.2 <;> simp [ht, hp2]

/-- Witness for C10: the entry built from the pair P1 with quantity 5 and
no new_id has a quantity and neither identifier field. -/
theorem entry_field_exclusivity_witness :
    (e10.newid.isSome = true ∧ e10.id = none ∧ e10.quantity = none)
    ∨ (e10.newid = none ∧ e10.id.isSome = true ∧ e10.quantity = none)
    ∨ (e10.newid = none ∧ e10.id = none ∧ e10.quantity.isSome = true) :=
  entry_field_exclusivity [("P1", Json.num 5)] none e10 (List.mem_singleton.mpr rfl)
